import Mathlib

/-
Verification of the GE-Tracker price monitor (src/price-tracker.py) against its
specification. The Python source is shallowly embedded: HTTP interactions are
modelled as explicit inputs (a status code with a parsed body, or a raised
exception), the background polling loop is modelled as a recursion over the
sequence of per-tick fetch results together with the per-tick value read from
the global `monitoring` flag, and GUI label/notification updates are modelled
as emitted events.
-/

namespace GETracker

/-- A low/high price pair for one item, the value stored per id in the `data`
field of the latest-price endpoint's response. -/
structure PricePoint where
  low : Int
  high : Int
deriving DecidableEq, Repr

/-- The parsed `data` field of the latest-price response: a dictionary from an
item id to its price point. JSON keys are the string-encoded ids; since
string-encoding is injective on ids, the table is keyed directly by the id. -/
abbrev PriceTable := List (Nat × PricePoint)

/-- The `item_dict` catalog: a dictionary from item name to item id, built from
the mapping endpoint's response. Item ids in the OSRS API are non-negative. -/
abbrev Catalog := List (String × Nat)

/-- Outcome of one `requests.get` call: either a response carrying a status
code and the parsed JSON body, or a raised exception (network failure). -/
inductive HttpResult (α : Type) where
  | response (status : Nat) (body : α)
  | exn (msg : String)
deriving DecidableEq, Repr

/-- Python dictionary lookup `d.get(k)` for a dictionary built from a list of
key/value pairs: the LAST binding of a key wins, as in a Python dict
comprehension, and a missing key yields `none`. -/
def dictGet {κ ν : Type} [DecidableEq κ] (d : List (κ × ν)) (k : κ) : Option ν :=
  (d.reverse.find? (fun p => decide (p.1 = k))).map (fun p => p.2)

/-- One element of the mapping endpoint's JSON array: an object with a `name`
and an `id` field. -/
structure MappingEntry where
  name : String
  id : Nat
deriving DecidableEq, Repr

/-- `fetch_item_data` (src/price-tracker.py lines 29-39): issues a GET to the
mapping endpoint. On a 200 response it builds the name-to-id dictionary by
comprehension; on any other status it returns the empty dictionary. The call
`requests.get` is NOT wrapped in a try/except, so a raised network exception
propagates to the caller, modelled as `Except.error`. -/
def fetch_item_data (r : HttpResult (List MappingEntry)) : Except String Catalog :=
  match r with
  | .response status body =>
      if status = 200 then Except.ok (body.map (fun item => (item.name, item.id)))
      else Except.ok []
  | .exn msg => Except.error msg

/-- `fetch_prices` (src/price-tracker.py lines 55-63): issues a GET to the
latest-price endpoint. On a 200 response it returns the `data` dictionary; on
any other status it returns the empty dictionary. As in `fetch_item_data`, a
raised network exception propagates (`Except.error`). -/
def fetch_prices (r : HttpResult PriceTable) : Except String PriceTable :=
  match r with
  | .response status body => if status = 200 then Except.ok body else Except.ok []
  | .exn msg => Except.error msg

/-- Value of a run of decimal digit characters; `none` when the run is empty
or contains a non-digit. -/
def digitsVal (cs : List Char) : Option Nat :=
  if cs = [] then none
  else
    cs.foldl
      (fun acc c =>
        match acc with
        | none => none
        | some n => if c.isDigit then some (10 * n + (c.toNat - 48)) else none)
      (some 0)

/-- ASCII whitespace, as stripped by Python `int` from its string argument. -/
def isSpaceChar (c : Char) : Bool :=
  c = ' ' || c = '\t' || c = '\n' || c = '\r'

/-- Strip leading and trailing whitespace from a character list. -/
def trimChars (cs : List Char) : List Char :=
  ((cs.dropWhile isSpaceChar).reverse.dropWhile isSpaceChar).reverse

/-- Model of Python `int(s)` on a string, returning `none` where `int` raises
`ValueError`: surrounding whitespace is stripped, an optional leading sign is
allowed, and the remainder must be a non-empty run of decimal digits.
(Python additionally accepts underscores between digits and non-ASCII decimal
digits; those inputs are outside this model.) -/
def pyInt (s : String) : Option Int :=
  match trimChars s.toList with
  | '-' :: rest => (digitsVal rest).map (fun n => -(n : Int))
  | '+' :: rest => (digitsVal rest).map (fun n => (n : Int))
  | cs => (digitsVal cs).map (fun n => (n : Int))

/-- The threshold-entry conversion `int(s) if s else None` inside the `try`
block of `monitor_price` (lines 182-189): an empty entry becomes `None`; a
non-empty entry must parse as an integer, else `ValueError` is raised,
modelled as the outer `none`. -/
def parseOpt (s : String) : Option (Option Int) :=
  if s = "" then some none else (pyInt s).map some

/-- Observable outputs of the monitor loop body: the `result_label` update with
the fresh prices, and the two desktop notifications. -/
inductive Event where
  | priceUpdate (name : String) (low high : Int)
  | lowAlert (name : String) (price : Int)
  | highAlert (name : String) (price : Int)
deriving DecidableEq, Repr

/-- Events emitted by one iteration of the `monitor_price` loop for an
available quote (lines 203-219): the price-update display, then a low alert
when a low threshold is set and `low_price <= low_price_alert`, then a high
alert when a high threshold is set and `high_price >= high_price_alert`. -/
def tickEvents (item_name : String) (lowA highA : Option Int) (q : PricePoint) :
    List Event :=
  [Event.priceUpdate item_name q.low q.high]
    ++ (match lowA with
        | some t => if q.low ≤ t then [Event.lowAlert item_name q.low] else []
        | none => [])
    ++ (match highA with
        | some t => if t ≤ q.high then [Event.highAlert item_name q.high] else []
        | none => [])

/-- Outcome of the validation phase of `monitor_price` (lines 169-191),
reported through `status_label`. -/
inductive StartResult where
  | itemNotFound
  | noThreshold
  | invalidThreshold
  | started (itemId : Nat) (lowA highA : Option Int)
deriving DecidableEq, Repr

/-- How the monitoring loop ended. `notStarted`: validation rejected before the
loop. `stopped`: the `monitoring` flag was observed false at the top of an
iteration. `unavailable`: price data missing for the item, `break`.
`raised`: `fetch_prices` raised. `ranOut`: the modelled fetch sequence was
exhausted while the loop was still armed (the real loop would keep polling). -/
inductive LoopExit where
  | notStarted
  | stopped
  | unavailable
  | raised (msg : String)
  | ranOut
deriving DecidableEq, Repr

/-- Trace of one run of the `while monitoring` loop: the events emitted, the
number of calls made to `fetch_prices`, and how the loop ended. -/
structure LoopRun where
  events : List Event
  fetchCount : Nat
  exit : LoopExit
deriving DecidableEq, Repr

/-- The `while monitoring` loop of `monitor_price` (lines 197-221). `flagAt n`
is the value of the global `monitoring` flag as read at the top of iteration
`n` (stop_monitoring may set it false at any point); `fetches` lists the
successive outcomes of the per-tick `requests.get` to the price endpoint.
Each iteration checks the flag, calls `fetch_prices`, breaks with a
data-unavailable status when the table has no entry for the item
(`not price_data or str(item_id) not in price_data`, i.e. the lookup yields
`none`), and otherwise emits the iteration's events and sleeps until the next
iteration. -/
def monitorLoop (item_name : String) (item_id : Nat) (lowA highA : Option Int)
    (flagAt : Nat → Bool) (n : Nat) :
    List (HttpResult PriceTable) → LoopRun
  | [] => if flagAt n then ⟨[], 0, LoopExit.ranOut⟩ else ⟨[], 0, LoopExit.stopped⟩
  | f :: rest =>
    if flagAt n then
      match fetch_prices f with
      | .error msg => ⟨[], 1, LoopExit.raised msg⟩
      | .ok d =>
        match dictGet d item_id with
        | none => ⟨[], 1, LoopExit.unavailable⟩
        | some q =>
          let r := monitorLoop item_name item_id lowA highA flagAt (n + 1) rest
          ⟨tickEvents item_name lowA highA q ++ r.events, r.fetchCount + 1, r.exit⟩
    else ⟨[], 0, LoopExit.stopped⟩

/-- Trace of one call to `monitor_price`: the validation outcome plus the loop
trace (empty when validation rejected). -/
structure MonitorRun where
  result : StartResult
  events : List Event
  fetchCount : Nat
  exit : LoopExit
deriving DecidableEq, Repr

/-- `monitor_price` (src/price-tracker.py lines 161-221). Validation order as
in the source: resolve the item name (`if not item_id` — both a missing name
and the falsy id 0 reject with item-not-found); require at least one of the
two threshold entries to be non-empty; convert the entries with `int(...)`
inside a try/except. Only after all three checks does the code set
`monitoring = True` and enter the polling loop. -/
def monitor_price (item_dict : Catalog) (item_name lowStr highStr : String)
    (flagAt : Nat → Bool) (fetches : List (HttpResult PriceTable)) : MonitorRun :=
  match dictGet item_dict item_name with
  | none => ⟨StartResult.itemNotFound, [], 0, LoopExit.notStarted⟩
  | some item_id =>
    if item_id = 0 then ⟨StartResult.itemNotFound, [], 0, LoopExit.notStarted⟩
    else if lowStr = "" ∧ highStr = "" then
      ⟨StartResult.noThreshold, [], 0, LoopExit.notStarted⟩
    else
      match parseOpt lowStr, parseOpt highStr with
      | some lowA, some highA =>
        let r := monitorLoop item_name item_id lowA highA flagAt 0 fetches
        ⟨StartResult.started item_id lowA highA, r.events, r.fetchCount, r.exit⟩
      | _, _ => ⟨StartResult.invalidThreshold, [], 0, LoopExit.notStarted⟩

/-- Outcome of `get_price`, reported through `status_label` / `result_label`.
`price itemId low high` records which table key the prices were read under. -/
inductive GetPriceResult where
  | itemNotFound
  | unavailable
  | raised (msg : String)
  | price (itemId : Nat) (low high : Int)
deriving DecidableEq, Repr

/-- `get_price` (src/price-tracker.py lines 136-159): resolve the name
(`if not item_id` — missing name or falsy id 0 rejects), fetch the price
table, report unavailable when the table is empty or lacks the id, otherwise
read `price_data[str(item_id)]` and display its low/high prices. -/
def get_price (item_dict : Catalog) (item_name : String)
    (fetch : HttpResult PriceTable) : GetPriceResult :=
  match dictGet item_dict item_name with
  | none => GetPriceResult.itemNotFound
  | some item_id =>
    if item_id = 0 then GetPriceResult.itemNotFound
    else
      match fetch_prices fetch with
      | .error msg => GetPriceResult.raised msg
      | .ok d =>
        match dictGet d item_id with
        | none => GetPriceResult.unavailable
        | some q => GetPriceResult.price item_id q.low q.high

/-- `start_monitoring` (src/price-tracker.py lines 223-229): spawns
`monitor_price` on a fresh daemon thread unconditionally. `monitoringBefore`
is the value of the global `monitoring` flag at the moment of the call:
neither `start_monitoring` nor `monitor_price` consults it, so the parameter
is unused — the only guard against re-entry in the source is the GUI
disabling the start button while a session runs. -/
def start_monitoring (monitoringBefore : Bool) (item_dict : Catalog)
    (item_name lowStr highStr : String) (flagAt : Nat → Bool)
    (fetches : List (HttpResult PriceTable)) : MonitorRun :=
  monitor_price item_dict item_name lowStr highStr flagAt fetches

/-! ## Helper lemmas -/

/-- The threshold conversion of one entry yields `none` (a raised `ValueError`)
exactly when the entry is non-empty and does not parse as an integer. -/
lemma parseOpt_eq_none_iff (s : String) :
    parseOpt s = none ↔ s ≠ "" ∧ pyInt s = none := by
  by_cases h : s = "" <;> simp [parseOpt, h, Option.map_eq_none']

/-- Unfolding of `monitor_price` once the item name has resolved. -/
lemma monitor_price_eq_of_resolve (item_dict : Catalog)
    (item_name lowStr highStr : String) (flagAt : Nat → Bool)
    (fetches : List (HttpResult PriceTable)) (item_id : Nat)
    (hres : dictGet item_dict item_name = some item_id) :
    monitor_price item_dict item_name lowStr highStr flagAt fetches =
      if item_id = 0 then ⟨StartResult.itemNotFound, [], 0, LoopExit.notStarted⟩
      else if lowStr = "" ∧ highStr = "" then
        ⟨StartResult.noThreshold, [], 0, LoopExit.notStarted⟩
      else
        match parseOpt lowStr, parseOpt highStr with
        | some lowA, some highA =>
          let r := monitorLoop item_name item_id lowA highA flagAt 0 fetches
          ⟨StartResult.started item_id lowA highA, r.events, r.fetchCount, r.exit⟩
        | _, _ => ⟨StartResult.invalidThreshold, [], 0, LoopExit.notStarted⟩ := by
  unfold monitor_price
  rw [hres]

/-- When either threshold entry fails to convert, `monitor_price` rejects with
the invalid-threshold status without entering the loop: no events, no calls to
`fetch_prices`. -/
lemma monitor_price_run_invalid (item_dict : Catalog)
    (item_name lowStr highStr : String) (flagAt : Nat → Bool)
    (fetches : List (HttpResult PriceTable)) (item_id : Nat)
    (hres : dictGet item_dict item_name = some item_id) (hid : item_id ≠ 0)
    (hn : parseOpt lowStr = none ∨ parseOpt highStr = none) :
    monitor_price item_dict item_name lowStr highStr flagAt fetches =
      ⟨StartResult.invalidThreshold, [], 0, LoopExit.notStarted⟩ := by
  have hne : ¬ (lowStr = "" ∧ highStr = "") := by
    rintro ⟨h1, h2⟩
    rcases hn with hn | hn
    · rw [h1] at hn
      simp [parseOpt] at hn
    · rw [h2] at hn
      simp [parseOpt] at hn
  rw [monitor_price_eq_of_resolve item_dict item_name lowStr highStr flagAt fetches
    item_id hres, if_neg hid, if_neg hne]
  cases hl : parseOpt lowStr with
  | none => rfl
  | some lowA =>
    cases hh : parseOpt highStr with
    | none => rfl
    | some highA =>
      rcases hn with hn | hn
      · rw [hl] at hn
        exact absurd hn (by simp)
      · rw [hh] at hn
        exact absurd hn (by simp)

/-- When both threshold entries convert, `monitor_price` accepts and starts
the loop with the converted thresholds. -/
lemma monitor_price_result_started (item_dict : Catalog)
    (item_name lowStr highStr : String) (flagAt : Nat → Bool)
    (fetches : List (HttpResult PriceTable)) (item_id : Nat)
    (lowA highA : Option Int)
    (hres : dictGet item_dict item_name = some item_id) (hid : item_id ≠ 0)
    (hne : ¬ (lowStr = "" ∧ highStr = ""))
    (hl : parseOpt lowStr = some lowA) (hh : parseOpt highStr = some highA) :
    (monitor_price item_dict item_name lowStr highStr flagAt fetches).result =
      StartResult.started item_id lowA highA := by
  rw [monitor_price_eq_of_resolve item_dict item_name lowStr highStr flagAt fetches
    item_id hres, if_neg hid, if_neg hne, hl, hh]

/-- `monitor_price` reports the invalid-threshold status exactly when one of
the two threshold entries fails to convert (given a resolvable item name with
a truthy id). -/
lemma monitor_price_result_invalid_iff (item_dict : Catalog)
    (item_name lowStr highStr : String) (flagAt : Nat → Bool)
    (fetches : List (HttpResult PriceTable)) (item_id : Nat)
    (hres : dictGet item_dict item_name = some item_id) (hid : item_id ≠ 0) :
    ((monitor_price item_dict item_name lowStr highStr flagAt fetches).result =
        StartResult.invalidThreshold) ↔
      parseOpt lowStr = none ∨ parseOpt highStr = none := by
  constructor
  · intro h
    by_contra hc
    push_neg at hc
    obtain ⟨hl', hh'⟩ := hc
    rcases Option.ne_none_iff_exists'.mp hl' with ⟨lowA, hl⟩
    rcases Option.ne_none_iff_exists'.mp hh' with ⟨highA, hh⟩
    by_cases hne : lowStr = "" ∧ highStr = ""
    · rw [monitor_price_eq_of_resolve item_dict item_name lowStr highStr flagAt fetches
        item_id hres, if_neg hid, if_pos hne] at h
      exact absurd h (by simp)
    · rw [monitor_price_result_started item_dict item_name lowStr highStr flagAt fetches
        item_id lowA highA hres hid hne hl hh] at h
      exact absurd h (by simp)
  · intro hn
    rw [monitor_price_run_invalid item_dict item_name lowStr highStr flagAt fetches
      item_id hres hid hn]

/-- Once the `monitoring` flag reads false from tick `k` onward, the loop's
behaviour from any starting tick `n` coincides with its behaviour on the fetch
sequence truncated to the ticks before `k`: ticks at or after `k` contribute
no fetches and no events. -/
lemma monitorLoop_take (item_name : String) (item_id : Nat) (lowA highA : Option Int)
    (flagAt : Nat → Bool) (k : Nat)
    (hstop : ∀ m, k ≤ m → flagAt m = false) :
    ∀ (fetches : List (HttpResult PriceTable)) (n : Nat),
      monitorLoop item_name item_id lowA highA flagAt n fetches =
        monitorLoop item_name item_id lowA highA flagAt n (fetches.take (k - n)) := by
  intro fetches
  induction fetches with
  | nil =>
    intro n
    rw [List.take_nil]
  | cons f rest ih =>
    intro n
    by_cases hf : flagAt n = true
    · have hnk : n < k := by
        by_contra hnk
        push_neg at hnk
        rw [hstop n hnk] at hf
        exact Bool.false_ne_true hf
      have htake : (f :: rest).take (k - n) = f :: rest.take (k - (n + 1)) := by
        have hkn : k - n = (k - (n + 1)) + 1 := by omega
        rw [hkn, List.take_succ_cons]
      rw [htake]
      cases hfp : fetch_prices f with
      | error msg => simp only [monitorLoop, hf, if_true, hfp]
      | ok d =>
        cases hdg : dictGet d item_id with
        | none => simp only [monitorLoop, hf, if_true, hfp, hdg]
        | some q =>
          simp only [monitorLoop, hf, if_true, hfp, hdg]
          rw [ih (n + 1)]
    · rw [Bool.not_eq_true] at hf
      cases htake : (f :: rest).take (k - n) with
      | nil => simp [monitorLoop, hf]
      | cons g l => simp [monitorLoop, hf]

/-- A low-alert notification for the fetched low price is among the events of
one loop iteration exactly when a low threshold is set and the low price is at
or below it. -/
lemma lowAlert_mem_iff (item_name : String) (lowA highA : Option Int) (q : PricePoint) :
    Event.lowAlert item_name q.low ∈ tickEvents item_name lowA highA q ↔
      ∃ t, lowA = some t ∧ q.low ≤ t := by
  unfold tickEvents
  cases lowA with
  | none =>
    cases highA with
    | none => simp
    | some th => by_cases h : th ≤ q.high <;> simp [h]
  | some tl =>
    by_cases hl : q.low ≤ tl <;>
      cases highA with
      | none => simp [hl]
      | some th => by_cases h : th ≤ q.high <;> simp [hl, h]

/-- A high-alert notification for the fetched high price is among the events
of one loop iteration exactly when a high threshold is set and the high price
is at or above it. -/
lemma highAlert_mem_iff (item_name : String) (lowA highA : Option Int) (q : PricePoint) :
    Event.highAlert item_name q.high ∈ tickEvents item_name lowA highA q ↔
      ∃ t, highA = some t ∧ t ≤ q.high := by
  unfold tickEvents
  cases highA with
  | none =>
    cases lowA with
    | none => simp
    | some tl => by_cases h : q.low ≤ tl <;> simp [h]
  | some th =>
    by_cases hh : th ≤ q.high <;>
      cases lowA with
      | none => simp [hh]
      | some tl => by_cases h : q.low ≤ tl <;> simp [hh, h]

/-! ## Claims -/

/-- Claim C1, counterexample: `fetch_item_data` does not catch a raised network
exception — on a request failure the exception propagates to the caller
(`Except.error`), so the function does not return a catalog for every network
behaviour, contradicting the never-raises part of the claim. -/
theorem C1_counterexample :
    fetch_item_data (HttpResult.exn "ConnectionError") =
        Except.error "ConnectionError" ∧
    fetch_item_data (HttpResult.exn "ConnectionError") ≠
        Except.ok ([] : Catalog) := by
  constructor
  · rfl
  · intro h
    exact Except.noConfusion h

/-- Claim C1, amended: on a non-success response `fetch_item_data` returns the
empty catalog, and on a 200 response it returns the name-to-id catalog built
from the body; but a network failure that raises an exception propagates it to
the caller rather than degrading to an empty catalog. -/
theorem C1_fetch_item_data_amended (status : Nat) (body : List MappingEntry)
    (msg : String) (hstatus : status ≠ 200) :
    fetch_item_data (HttpResult.response status body) = Except.ok [] ∧
    fetch_item_data (HttpResult.response 200 body) =
      Except.ok (body.map (fun item => (item.name, item.id))) ∧
    fetch_item_data (HttpResult.exn msg) = Except.error msg := by
  refine ⟨?_, rfl, rfl⟩
  simp [fetch_item_data, hstatus]

/-- Claim C1, witness: the amended theorem applied at status 404. -/
theorem C1_fetch_item_data_amended_witness :
    (404 : Nat) ≠ 200 ∧
    fetch_item_data (HttpResult.response 404 ([] : List MappingEntry)) =
      Except.ok [] :=
  ⟨by decide, (C1_fetch_item_data_amended 404 [] "ConnectionError" (by decide)).1⟩

/-- Claim C2, counterexample: with both threshold entries empty and an item
name that does not resolve, `monitor_price` rejects with the item-not-found
status, not the no-threshold status — the name-resolution check runs first, so
the rejection reason does depend on whether the name resolves. -/
theorem C2_counterexample :
    (monitor_price [] "Cabbage" "" "" (fun _ => true) []).result =
        StartResult.itemNotFound ∧
    (monitor_price [] "Cabbage" "" "" (fun _ => true) []).result ≠
        StartResult.noThreshold := by
  constructor <;> decide

/-- Claim C2, amended: with both threshold entries empty and an item name that
resolves to a truthy (nonzero) id, `monitor_price` rejects with the
no-threshold status ("Enter at least a Low or High price."); with a
non-resolving name the earlier item-not-found check rejects instead. -/
theorem C2_monitor_price_amended (item_dict : Catalog) (item_name : String)
    (flagAt : Nat → Bool) (fetches : List (HttpResult PriceTable)) (item_id : Nat)
    (hres : dictGet item_dict item_name = some item_id) (hid : item_id ≠ 0) :
    (monitor_price item_dict item_name "" "" flagAt fetches).result =
      StartResult.noThreshold := by
  rw [monitor_price_eq_of_resolve item_dict item_name "" "" flagAt fetches
    item_id hres, if_neg hid, if_pos ⟨rfl, rfl⟩]

/-- Claim C2, witness: the amended theorem applied to a one-entry catalog. -/
theorem C2_monitor_price_amended_witness :
    dictGet [("Cabbage", 1891)] "Cabbage" = some 1891 ∧ (1891 : Nat) ≠ 0 ∧
    (monitor_price [("Cabbage", 1891)] "Cabbage" "" "" (fun _ => true) []).result =
      StartResult.noThreshold :=
  ⟨by decide, by decide,
    C2_monitor_price_amended [("Cabbage", 1891)] "Cabbage" (fun _ => true) [] 1891
      (by decide) (by decide)⟩

/-- Claim C3, counterexample: the threshold conversion is Python `int`, which
accepts negative values, so a supplied bound of "-5" is accepted and
monitoring starts with threshold -5 — it is not rejected with the
invalid-threshold status as the claim requires. -/
theorem C3_counterexample :
    (monitor_price [("Cabbage", 1891)] "Cabbage" "-5" "" (fun _ => false) []).result =
        StartResult.started 1891 (some (-5)) none ∧
    (monitor_price [("Cabbage", 1891)] "Cabbage" "-5" "" (fun _ => false) []).result ≠
        StartResult.invalidThreshold := by
  constructor <;> decide

/-- Claim C3, amended: with a resolvable item name (nonzero id), a supplied
pair of threshold entries is rejected with the invalid-threshold status
exactly when some non-empty entry fails to parse as an integer. An optional
sign is permitted, so negative bounds are accepted, not rejected: the check is
integer-parseability, not non-negativity. -/
theorem C3_monitor_price_amended (item_dict : Catalog)
    (item_name lowStr highStr : String) (flagAt : Nat → Bool)
    (fetches : List (HttpResult PriceTable)) (item_id : Nat)
    (hres : dictGet item_dict item_name = some item_id) (hid : item_id ≠ 0) :
    ((monitor_price item_dict item_name lowStr highStr flagAt fetches).result =
        StartResult.invalidThreshold) ↔
      (lowStr ≠ "" ∧ pyInt lowStr = none) ∨ (highStr ≠ "" ∧ pyInt highStr = none) := by
  rw [monitor_price_result_invalid_iff item_dict item_name lowStr highStr flagAt
    fetches item_id hres hid, parseOpt_eq_none_iff, parseOpt_eq_none_iff]

/-- Claim C3, witness: the amended theorem applied at the entries "abc"/"". -/
theorem C3_monitor_price_amended_witness :
    dictGet [("Cabbage", 1891)] "Cabbage" = some 1891 ∧ (1891 : Nat) ≠ 0 ∧
    (((monitor_price [("Cabbage", 1891)] "Cabbage" "abc" "" (fun _ => true) []).result =
        StartResult.invalidThreshold) ↔
      (("abc" : String) ≠ "" ∧ pyInt "abc" = none) ∨
        (("" : String) ≠ "" ∧ pyInt "" = none)) :=
  ⟨by decide, by decide,
    C3_monitor_price_amended [("Cabbage", 1891)] "Cabbage" "abc" "" (fun _ => true) []
      1891 (by decide) (by decide)⟩

/-- Claim C4: with a resolvable item name (nonzero id) and a supplied
threshold entry that is non-empty but not numeric, `monitor_price` rejects
with the invalid-threshold status ("Invalid price values!") and performs zero
calls to `fetch_prices`: the returned trace records no fetches and no events,
and the loop is never entered. -/
theorem C4_invalid_threshold_no_fetch (item_dict : Catalog)
    (item_name lowStr highStr : String) (flagAt : Nat → Bool)
    (fetches : List (HttpResult PriceTable)) (item_id : Nat)
    (hres : dictGet item_dict item_name = some item_id) (hid : item_id ≠ 0)
    (hbad : (lowStr ≠ "" ∧ pyInt lowStr = none) ∨
      (highStr ≠ "" ∧ pyInt highStr = none)) :
    monitor_price item_dict item_name lowStr highStr flagAt fetches =
      ⟨StartResult.invalidThreshold, [], 0, LoopExit.notStarted⟩ := by
  apply monitor_price_run_invalid item_dict item_name lowStr highStr flagAt fetches
    item_id hres hid
  rcases hbad with h | h
  · exact Or.inl ((parseOpt_eq_none_iff lowStr).mpr h)
  · exact Or.inr ((parseOpt_eq_none_iff highStr).mpr h)

/-- Claim C4, witness: the theorem applied at the entries "abc"/"", with a
non-empty fetch sequence available that is nevertheless never consumed. -/
theorem C4_invalid_threshold_no_fetch_witness :
    dictGet [("Cabbage", 1891)] "Cabbage" = some 1891 ∧ (1891 : Nat) ≠ 0 ∧
    ((("abc" : String) ≠ "" ∧ pyInt "abc" = none) ∨
      (("" : String) ≠ "" ∧ pyInt "" = none)) ∧
    monitor_price [("Cabbage", 1891)] "Cabbage" "abc" "" (fun _ => true)
        [HttpResult.response 200 [(1891, ⟨90, 150⟩)]] =
      ⟨StartResult.invalidThreshold, [], 0, LoopExit.notStarted⟩ :=
  ⟨by decide, by decide, Or.inl ⟨by decide, by decide⟩,
    C4_invalid_threshold_no_fetch [("Cabbage", 1891)] "Cabbage" "abc" ""
      (fun _ => true) [HttpResult.response 200 [(1891, ⟨90, 150⟩)]] 1891
      (by decide) (by decide) (Or.inl ⟨by decide, by decide⟩)⟩

/-- Claim C5: on a poll tick with an available quote, a low alert is emitted
iff a low threshold is set and the quote's low price is at or below it, and a
high alert is emitted iff a high threshold is set and the quote's high price
is at or above it. In particular, with thresholds low=100/high=200 and a quote
of low=90/high=150, the tick emits exactly the price update and one low alert
(no high alert); and with only low=100 set, a quote with low=100 fires the low
alert because the comparison includes equality. -/
theorem C5_tick_alert_conditions :
    (∀ (item_name : String) (lowA highA : Option Int) (q : PricePoint),
      (Event.lowAlert item_name q.low ∈ tickEvents item_name lowA highA q ↔
        ∃ t, lowA = some t ∧ q.low ≤ t) ∧
      (Event.highAlert item_name q.high ∈ tickEvents item_name lowA highA q ↔
        ∃ t, highA = some t ∧ t ≤ q.high)) ∧
    tickEvents "Cabbage" (some 100) (some 200) ⟨90, 150⟩ =
      [Event.priceUpdate "Cabbage" 90 150, Event.lowAlert "Cabbage" 90] ∧
    tickEvents "Cabbage" (some 100) none ⟨100, 150⟩ =
      [Event.priceUpdate "Cabbage" 100 150, Event.lowAlert "Cabbage" 100] :=
  ⟨fun item_name lowA highA q =>
    ⟨lowAlert_mem_iff item_name lowA highA q, highAlert_mem_iff item_name lowA highA q⟩,
    by decide, by decide⟩

/-- Claim C6: an id absent from the fetched price table (in particular from
the empty table that `fetch_prices` returns on a non-success response) is
fatal to the session: at the first such tick the loop exits with the
data-unavailable status, having made exactly one `fetch_prices` call in that
iteration, emitting no events and never retrying — the remaining fetch
sequence is untouched, whatever it holds. -/
theorem C6_unavailable_is_fatal (item_name : String) (item_id : Nat)
    (lowA highA : Option Int) (flagAt : Nat → Bool) (f : HttpResult PriceTable)
    (rest : List (HttpResult PriceTable)) (d : PriceTable) (status : Nat)
    (hflag : flagAt 0 = true) (hfetch : fetch_prices f = Except.ok d)
    (habsent : dictGet d item_id = none) (hstatus : status ≠ 200) :
    monitorLoop item_name item_id lowA highA flagAt 0 (f :: rest) =
      ⟨[], 1, LoopExit.unavailable⟩ ∧
    fetch_prices (HttpResult.response status d) = Except.ok [] := by
  constructor
  · simp [monitorLoop, hflag, hfetch, habsent]
  · simp [fetch_prices, hstatus]

/-- Claim C6, witness: the theorem applied at a table that lacks the monitored
id, with a later fetch available that would have contained it. -/
theorem C6_unavailable_is_fatal_witness :
    (fun _ : Nat => true) 0 = true ∧
    fetch_prices (HttpResult.response 200 [(2, ⟨1, 2⟩)]) = Except.ok [(2, ⟨1, 2⟩)] ∧
    dictGet [((2 : Nat), PricePoint.mk 1 2)] 5 = none ∧ (500 : Nat) ≠ 200 ∧
    (monitorLoop "Cabbage" 5 (some 100) none (fun _ => true) 0
        [HttpResult.response 200 [(2, ⟨1, 2⟩)], HttpResult.response 200 [(5, ⟨3, 4⟩)]] =
      ⟨[], 1, LoopExit.unavailable⟩ ∧
    fetch_prices (HttpResult.response 500 [(2, ⟨1, 2⟩)]) = Except.ok []) :=
  ⟨rfl, rfl, by decide, by decide,
    C6_unavailable_is_fatal "Cabbage" 5 (some 100) none (fun _ => true)
      (HttpResult.response 200 [(2, ⟨1, 2⟩)]) [HttpResult.response 200 [(5, ⟨3, 4⟩)]]
      [(2, ⟨1, 2⟩)] 500 rfl rfl (by decide) (by decide)⟩

/-- Claim C7: once `stop_monitoring` has set the `monitoring` flag false — so
that every read of the flag from tick `k` onward yields false — the loop run
coincides with the run on the fetch sequence truncated to the first `k` ticks:
an iteration already in flight completes, and after it no further price
updates, alerts, or fetches occur. -/
theorem C7_stop_silences_loop (item_name : String) (item_id : Nat)
    (lowA highA : Option Int) (flagAt : Nat → Bool) (k : Nat)
    (fetches : List (HttpResult PriceTable))
    (hstop : ∀ m, k ≤ m → flagAt m = false) :
    monitorLoop item_name item_id lowA highA flagAt 0 fetches =
      monitorLoop item_name item_id lowA highA flagAt 0 (fetches.take k) ∧
    (monitorLoop item_name item_id lowA highA flagAt 0 fetches).events =
      (monitorLoop item_name item_id lowA highA flagAt 0 (fetches.take k)).events := by
  have h := monitorLoop_take item_name item_id lowA highA flagAt k hstop fetches 0
  rw [Nat.sub_zero] at h
  exact ⟨h, by rw [h]⟩

/-- Claim C7, witness: the theorem applied to a flag that is read true at tick
0 and false from tick 1 onward: the run over two available fetches equals the
run over the first fetch alone. -/
theorem C7_stop_silences_loop_witness :
    (∀ m, 1 ≤ m → (fun n : Nat => n == 0) m = false) ∧
    (monitorLoop "Cabbage" 2 (some 100) none (fun n => n == 0) 0
        [HttpResult.response 200 [(2, ⟨90, 150⟩)], HttpResult.response 200 [(2, ⟨10, 20⟩)]] =
      monitorLoop "Cabbage" 2 (some 100) none (fun n => n == 0) 0
        ([HttpResult.response 200 [(2, ⟨90, 150⟩)],
          HttpResult.response 200 [(2, ⟨10, 20⟩)]].take 1) ∧
    (monitorLoop "Cabbage" 2 (some 100) none (fun n => n == 0) 0
        [HttpResult.response 200 [(2, ⟨90, 150⟩)], HttpResult.response 200 [(2, ⟨10, 20⟩)]]).events =
      (monitorLoop "Cabbage" 2 (some 100) none (fun n => n == 0) 0
        ([HttpResult.response 200 [(2, ⟨90, 150⟩)],
          HttpResult.response 200 [(2, ⟨10, 20⟩)]].take 1)).events) := by
  have hstop : ∀ m, 1 ≤ m → (fun n : Nat => n == 0) m = false := by
    intro m hm
    simp only [beq_eq_false_iff_ne, ne_eq]
    omega
  exact ⟨hstop,
    C7_stop_silences_loop "Cabbage" 2 (some 100) none (fun n => n == 0) 1
      [HttpResult.response 200 [(2, ⟨90, 150⟩)], HttpResult.response 200 [(2, ⟨10, 20⟩)]]
      hstop⟩

/-- Claim C8, counterexample: a catalog entry with id 0 defeats the round
trip. The name resolves in the catalog and the id is present in the fetched
price table, yet `get_price` reports item-not-found instead of returning the
quote, because the not-found check tests the id's truthiness. -/
theorem C8_counterexample :
    dictGet [("Cabbage", 0)] "Cabbage" = some 0 ∧
    dictGet [((0 : Nat), PricePoint.mk 90 150)] 0 = some ⟨90, 150⟩ ∧
    get_price [("Cabbage", 0)] "Cabbage" (HttpResult.response 200 [(0, ⟨90, 150⟩)]) =
      GetPriceResult.itemNotFound := by
  refine ⟨by decide, by decide, by decide⟩

/-- Claim C8, amended: for every item name in a catalog loaded by
`fetch_item_data` whose id is NONZERO and present in the fetched price table,
`get_price` returns the price entry read under exactly that id — the quote's
id matches the catalog entry. (The id-0 edge case is carved out by the
counterexample; see the claim on falsy-id handling.) -/
theorem C8_roundtrip_amended (items : List MappingEntry) (cat : Catalog)
    (item_name : String) (item_id : Nat) (d : PriceTable) (q : PricePoint)
    (hcat : fetch_item_data (HttpResult.response 200 items) = Except.ok cat)
    (hres : dictGet cat item_name = some item_id) (hid : item_id ≠ 0)
    (hq : dictGet d item_id = some q) :
    get_price cat item_name (HttpResult.response 200 d) =
      GetPriceResult.price item_id q.low q.high := by
  simp [get_price, hres, hid, fetch_prices, hq]

/-- Claim C8, witness: the amended theorem applied to a one-item catalog and a
one-row price table. -/
theorem C8_roundtrip_amended_witness :
    fetch_item_data (HttpResult.response 200 [⟨"Cabbage", 1891⟩]) =
      Except.ok [("Cabbage", 1891)] ∧
    dictGet [("Cabbage", 1891)] "Cabbage" = some 1891 ∧ (1891 : Nat) ≠ 0 ∧
    dictGet [((1891 : Nat), PricePoint.mk 90 150)] 1891 = some ⟨90, 150⟩ ∧
    get_price [("Cabbage", 1891)] "Cabbage"
        (HttpResult.response 200 [(1891, ⟨90, 150⟩)]) =
      GetPriceResult.price 1891 90 150 :=
  ⟨rfl, by decide, by decide, by decide,
    C8_roundtrip_amended [⟨"Cabbage", 1891⟩] [("Cabbage", 1891)] "Cabbage" 1891
      [(1891, ⟨90, 150⟩)] ⟨90, 150⟩ rfl (by decide) (by decide) (by decide)⟩

/-- Claim C9, counterexample: a start issued while the monitor is already
running is not rejected. `start_monitoring` spawns `monitor_price`
unconditionally and neither consults the `monitoring` flag, so with the flag
already true a valid start proceeds to a second polling session: it reports
started, fetches, and emits events. -/
theorem C9_counterexample :
    start_monitoring true [("Cabbage", 1891)] "Cabbage" "100" "" (fun _ => true)
        [HttpResult.response 200 [(1891, ⟨90, 150⟩)]] =
      ⟨StartResult.started 1891 (some 100) none,
        [Event.priceUpdate "Cabbage" 90 150, Event.lowAlert "Cabbage" 90], 1,
        LoopExit.ranOut⟩ := by
  decide

/-- Claim C9, amended: the source rejects a double start only through the GUI
(the start button is disabled while a session runs), not in the monitor
logic: `start_monitoring` behaves identically whatever the prior value of the
`monitoring` flag, and with valid inputs it starts a (second) polling session
even when called while one is already running. -/
theorem C9_start_ignores_running_state (b : Bool) (item_dict : Catalog)
    (item_name lowStr highStr : String) (flagAt : Nat → Bool)
    (fetches : List (HttpResult PriceTable)) (item_id : Nat)
    (lowA highA : Option Int)
    (hres : dictGet item_dict item_name = some item_id) (hid : item_id ≠ 0)
    (hne : ¬ (lowStr = "" ∧ highStr = ""))
    (hl : parseOpt lowStr = some lowA) (hh : parseOpt highStr = some highA) :
    start_monitoring b item_dict item_name lowStr highStr flagAt fetches =
      start_monitoring (!b) item_dict item_name lowStr highStr flagAt fetches ∧
    (start_monitoring b item_dict item_name lowStr highStr flagAt fetches).result =
      StartResult.started item_id lowA highA :=
  ⟨rfl, monitor_price_result_started item_dict item_name lowStr highStr flagAt
    fetches item_id lowA highA hres hid hne hl hh⟩

/-- Claim C9, witness: the amended theorem applied with the flag already true
at the moment of the call. -/
theorem C9_start_ignores_running_state_witness :
    dictGet [("Cabbage", 1891)] "Cabbage" = some 1891 ∧ (1891 : Nat) ≠ 0 ∧
    ¬ (("100" : String) = "" ∧ ("" : String) = "") ∧
    parseOpt "100" = some (some 100) ∧ parseOpt "" = some none ∧
    (start_monitoring true [("Cabbage", 1891)] "Cabbage" "100" "" (fun _ => true)
        [] =
      start_monitoring (!true) [("Cabbage", 1891)] "Cabbage" "100" "" (fun _ => true)
        [] ∧
    (start_monitoring true [("Cabbage", 1891)] "Cabbage" "100" "" (fun _ => true)
        []).result = StartResult.started 1891 (some 100) none) :=
  ⟨by decide, by decide, by decide, by decide, by decide,
    C9_start_ignores_running_state true [("Cabbage", 1891)] "Cabbage" "100" ""
      (fun _ => true) [] 1891 (some 100) none (by decide) (by decide) (by decide)
      (by decide) (by decide)⟩

/-- Claim C10: a catalog entry whose id is 0 is treated as not found by both
paths, because the not-found check (`if not item_id`) tests the id's
truthiness rather than its presence: `get_price` reports item-not-found for
every fetch behaviour, and `monitor_price` rejects with item-not-found before
any threshold handling, fetching, or event emission. -/
theorem C10_zero_id_not_found (item_dict : Catalog)
    (item_name lowStr highStr : String) (flagAt : Nat → Bool)
    (fetches : List (HttpResult PriceTable)) (f : HttpResult PriceTable)
    (hres : dictGet item_dict item_name = some 0) :
    get_price item_dict item_name f = GetPriceResult.itemNotFound ∧
    monitor_price item_dict item_name lowStr highStr flagAt fetches =
      ⟨StartResult.itemNotFound, [], 0, LoopExit.notStarted⟩ := by
  constructor
  · simp [get_price, hres]
  · rw [monitor_price_eq_of_resolve item_dict item_name lowStr highStr flagAt
      fetches 0 hres]
    simp

/-- Claim C10, witness: the theorem applied to a catalog mapping a name to
id 0, with thresholds supplied and price data available under key 0. -/
theorem C10_zero_id_not_found_witness :
    dictGet [("Cabbage", 0)] "Cabbage" = some 0 ∧
    (get_price [("Cabbage", 0)] "Cabbage" (HttpResult.response 200 [(0, ⟨90, 150⟩)]) =
        GetPriceResult.itemNotFound ∧
    monitor_price [("Cabbage", 0)] "Cabbage" "100" "200" (fun _ => true)
        [HttpResult.response 200 [(0, ⟨90, 150⟩)]] =
      ⟨StartResult.itemNotFound, [], 0, LoopExit.notStarted⟩) :=
  ⟨by decide,
    C10_zero_id_not_found [("Cabbage", 0)] "Cabbage" "100" "200" (fun _ => true)
      [HttpResult.response 200 [(0, ⟨90, 150⟩)]]
      (HttpResult.response 200 [(0, ⟨90, 150⟩)]) (by decide)⟩

end GETracker
